import Mathlib

/-!
Verification development for the BlinkSwitch window-placement engine.

The definitions below are a shallow embedding of the Python sources under
`src/backend/` (`layout_manager.py`, `layout_matcher.py`, `window_manager.py`,
`monitor_fingerprint.py`).  Dynamically typed dictionaries are embedded as
structures (optional keys become `Option` fields), the OS surface (file
system, monitor detection, live window state, per-window side effects) is
passed in explicitly as environment parameters, and Python falsiness of
strings / `None` / integers is modelled explicitly where the code relies
on it.
-/

namespace BlinkSwitch

/-- Python `a or b` for an optional string operand: `None` and `""` are falsy. -/
def pyOrS (a : Option String) (b : String) : String :=
  match a with
  | none => b
  | some s => if s == "" then b else s

/-- Python `str.lower()` (character-wise lowercasing). -/
def pyLower (s : String) : String :=
  ⟨s.data.map Char.toLower⟩

/-- Python `str.strip()`: drop leading and trailing whitespace. -/
def pyStrip (s : String) : String :=
  ⟨((s.data.dropWhile Char.isWhitespace).reverse.dropWhile
      Char.isWhitespace).reverse⟩

/-- Python `str.endswith(suffix)`. -/
def pyEndsWith (s suffix : String) : Bool :=
  suffix.data.isSuffixOf s.data

/-- Contiguous-sublist test on character lists (helper for Python `in`). -/
def charsContain (needle : List Char) : List Char → Bool
  | [] => needle.isPrefixOf []
  | c :: cs => needle.isPrefixOf (c :: cs) || charsContain needle cs

/-- Substring containment, `needle in hay` (Python's `in` on strings). -/
def strContains (hay needle : String) : Bool :=
  charsContain needle.toList hay.toList

/-- `layout_manager.normalize_exe_name`: lowercase, trim, ensure a `.exe`
suffix — except that the empty string is returned unchanged. -/
def normalize_exe_name (exe_name : String) : String :=
  let s := pyLower (pyStrip exe_name)
  if pyEndsWith s ".exe" then s
  else if s != "" then s ++ ".exe" else s

/-- The local `_norm_exe` closure inside `window_manager.apply_rules`
(character-for-character the same logic as `normalize_exe_name`). -/
def norm_exe_wm (s0 : String) : String :=
  let s := pyLower (pyStrip s0)
  if pyEndsWith s ".exe" then s
  else if s != "" then s ++ ".exe" else s

/-! ## MonitorFingerprint (`monitor_fingerprint.py`) -/

/-- A monitor fingerprint as produced by `generate_fingerprint`. -/
structure Fingerprint where
  primary : String
  secondary : String
deriving DecidableEq, Repr

/-- `MonitorFingerprint.fingerprints_match`: primary comparison first, then the
strict gate, then the secondary (resolution-only) fallback. -/
def fingerprints_match (fp1 fp2 : Fingerprint) (strict : Bool) : Bool × String :=
  if fp1.primary == fp2.primary then
    (true, "connector_and_resolution_match")
  else if strict then
    (false, "primary_mismatch_strict")
  else if fp1.secondary == fp2.secondary then
    (true, "resolution_match")
  else
    (false, "no_match")

/-! ## Window style bits (`window_manager.py`) -/

/-- `win32con.WS_POPUP`. -/
def WS_POPUP : Nat := 0x80000000

/-- `win32con.WS_CAPTION` (`WS_BORDER ||| WS_DLGFRAME`). -/
def WS_CAPTION : Nat := 0x00C00000

/-- `win32con.WS_THICKFRAME`. -/
def WS_THICKFRAME : Nat := 0x00040000

/-- `win32con.WS_MINIMIZEBOX`. -/
def WS_MINIMIZEBOX : Nat := 0x00020000

/-- `win32con.WS_MAXIMIZEBOX`. -/
def WS_MAXIMIZEBOX : Nat := 0x00010000

/-- The `if style < 0: style = style & 0xFFFFFFFF` signed-to-unsigned fixup
applied to `GetWindowLong` results.  On a negative two's-complement value,
Python's `& 0xFFFFFFFF` is reduction mod `2^32`. -/
def toU32 (style : Int) : Int :=
  if style < 0 then style % 4294967296 else style

/-- `WindowManager.is_window_fullscreen`: a window counts as fullscreen iff its
style lacks both the caption and the thick-frame bits.  (`has_popup` is
computed by the source but deliberately unused.) -/
def is_window_fullscreen (style : Int) : Bool :=
  let s := (toU32 style).toNat
  let _has_popup := s &&& WS_POPUP != 0
  let has_caption := s &&& WS_CAPTION != 0
  let has_border := s &&& WS_THICKFRAME != 0
  !has_caption && !has_border

/-! ## Layout data model (`layout_manager.py`, `layout_matcher.py`)

Layout files are JSON dictionaries; optional keys of the Python dicts become
`Option` fields.  Key-presence checks of `validate_layout` are modelled on
those fields; JSON *type* errors (a non-dict `screen_requirements`, a
non-list `screens`/`rules`) are outside this typed embedding. -/

/-- One entry of `screen_requirements.screens`. -/
structure ReqScreen where
  display_number : Int
  orientation : String
deriving DecidableEq, Repr

/-- The `screen_requirements` section of a layout file. -/
structure ScreenRequirements where
  total_screens : Option Int
  screens : Option (List ReqScreen)
deriving DecidableEq, Repr

/-- A stored layout rule (dict nested in a layout file). -/
structure RuleJ where
  rule_id : Option String
  match_type : Option String
  match_value : Option String
  target_display : Option Int
  fullscreen : Option Bool
  maximize : Option Bool
deriving DecidableEq, Repr

/-- A parsed layout file. -/
structure LayoutData where
  name : Option String
  screen_requirements : Option ScreenRequirements
  rules : Option (List RuleJ)
deriving DecidableEq, Repr

/-- One entry of `LayoutMatcher.get_screen_configuration`'s result. -/
structure ScreenCfg where
  display_number : Int
  orientation : String
  monitor_id : String
  width : Int
  height : Int
  name : String
deriving DecidableEq, Repr

/-! ## LayoutMatcher (`layout_matcher.py`) -/

/-- `LayoutMatcher.get_orientation`: width strictly greater than height is
horizontal, everything else (square included) vertical. -/
def get_orientation (width height : Int) : String :=
  if width > height then "horizontal" else "vertical"

/-- The per-required-screen loop of `matches_requirements`: for each required
screen find the first current entry with that display number (`next(...)`)
and compare orientation; fail fast on the first mismatch. -/
def check_required_screens (current_config : List ScreenCfg) :
    List ReqScreen → Bool × String
  | [] => (true, "All requirements met")
  | rs :: rest =>
    let d := rs.display_number
    match current_config.find? (fun s => s.display_number == d) with
    | none =>
      (false, "DISPLAY" ++ toString d ++ " not found (required for layout)")
    | some cs =>
      if cs.orientation != rs.orientation then
        (false, "DISPLAY" ++ toString d ++ " is " ++ cs.orientation ++
          ", but layout needs " ++ rs.orientation)
      else
        check_required_screens current_config rest

/-- `LayoutMatcher.matches_requirements`: exact total-screen-count equality
when `total_screens` is specified, then the per-screen checks. -/
def matches_requirements (current_config : List ScreenCfg)
    (layout_requirements : ScreenRequirements) : Bool × String :=
  match layout_requirements.total_screens with
  | some required_total =>
    if (current_config.length : Int) != required_total then
      (false, "Need exactly " ++ toString required_total ++ " screen(s), but " ++
        toString current_config.length ++ " connected")
    else
      check_required_screens current_config (layout_requirements.screens.getD [])
  | none =>
    check_required_screens current_config (layout_requirements.screens.getD [])

/-- Python-dict insertion (last write wins) used to model dict comprehensions. -/
def dictInsert (m : List (Int × String)) (k : Int) (v : String) :
    List (Int × String) :=
  if m.any (fun p => p.1 == k) then
    m.map (fun p => if p.1 == k then (k, v) else p)
  else
    m ++ [(k, v)]

/-- `LayoutMatcher.build_display_map`: `{display_number: monitor_id}` dict
comprehension over the current configuration. -/
def build_display_map (current_config : List ScreenCfg) : List (Int × String) :=
  current_config.foldl (fun m s => dictInsert m s.display_number s.monitor_id) []

/-! ## Layout validation (`LayoutManager.validate_layout`) -/

/-- The per-screen validation loop (index threaded for error messages).
With typed `ReqScreen` entries, only the orientation-value check can fail. -/
def validate_screens (i : Nat) : List ReqScreen → Option String
  | [] => none
  | s :: rest =>
    if s.orientation != "horizontal" && s.orientation != "vertical" then
      some ("Screen " ++ toString i ++ " has invalid orientation: " ++
        s.orientation ++ " (must be 'horizontal' or 'vertical')")
    else
      validate_screens (i + 1) rest

/-- The per-rule validation loop: required keys, and `target_display` must
reference a declared `display_number`. -/
def validate_rules (i : Nat) (required_displays : List Int) :
    List RuleJ → Option String
  | [] => none
  | r :: rest =>
    if r.match_type.isNone then
      some ("Rule " ++ toString i ++ " missing: match_type")
    else if r.match_value.isNone then
      some ("Rule " ++ toString i ++ " missing: match_value")
    else
      match r.target_display with
      | none => some ("Rule " ++ toString i ++ " missing: target_display")
      | some td =>
        if !required_displays.contains td then
          some ("Rule " ++ toString i ++ " targets DISPLAY" ++ toString td ++
            " which is not in screen_requirements")
        else
          validate_rules (i + 1) required_displays rest

/-- `LayoutManager.validate_layout`: required top-level fields, then
`screen_requirements` structure, then the rules. -/
def validate_layout (layout_data : LayoutData) : Bool × String :=
  match layout_data.name with
  | none => (false, "Missing required field: name")
  | some _ =>
    match layout_data.screen_requirements with
    | none => (false, "Missing required field: screen_requirements")
    | some screen_req =>
      match layout_data.rules with
      | none => (false, "Missing required field: rules")
      | some rules =>
        match screen_req.total_screens with
        | none => (false, "screen_requirements missing: total_screens")
        | some _ =>
          match screen_req.screens with
          | none => (false, "screen_requirements missing: screens")
          | some screens =>
            match validate_screens 0 screens with
            | some msg => (false, msg)
            | none =>
              let required_displays := screens.map (fun s => s.display_number)
              match validate_rules 0 required_displays rules with
              | some msg => (false, msg)
              | none => (true, "Layout is valid")

/-! ## LayoutManager lifecycle state machine (`layout_manager.py`)

The manager's mutable field `self.active_layout` is the state; the file
system under `layouts_dir`, the current screen configuration (what
`LayoutMatcher.get_screen_configuration` would report) and the clock are an
explicit environment.  Raised `LayoutError`s become `Except.error`. -/

/-- The in-memory active-layout slot (`self.active_layout` entry dict). -/
structure ActiveLayout where
  name : String
  file_name : String
  data : LayoutData
  display_map : List (Int × String)
  activated_at : Nat
deriving DecidableEq, Repr

/-- LayoutManager state: the single active-layout slot. -/
structure LMState where
  active_layout : Option ActiveLayout
deriving DecidableEq, Repr

/-- What opening and JSON-parsing a layout file can yield. -/
inductive FileOutcome where
  | missing
  | badJson (msg : String)
  | parsed (d : LayoutData)
deriving DecidableEq, Repr

/-- Environment: the layouts directory, the live screen configuration and a
clock for `datetime.now()`. -/
structure Env where
  files : String → FileOutcome
  current_config : List ScreenCfg
  now : Nat

/-- The `"coding"` / `"coding.json"` file-name normalization. -/
def layoutFileName (layout_name : String) : String :=
  if pyEndsWith layout_name ".json" then layout_name else layout_name ++ ".json"

/-- `LayoutManager.load_layout`: resolve the file name, read and parse the
file, validate the structure; any failure raises `LayoutError` (the
validation failure is re-wrapped by the outer `except Exception` handler). -/
def load_layout (env : Env) (layout_name : String) : Except String LayoutData :=
  let fname := layoutFileName layout_name
  match env.files fname with
  | .missing => .error ("Layout file not found: " ++ fname)
  | .badJson e => .error ("Invalid JSON in layout file: " ++ e)
  | .parsed d =>
    let v := validate_layout d
    if v.1 then .ok d
    else .error ("Error loading layout: Invalid layout file: " ++ v.2)

/-- `LayoutManager.can_apply_layout`: current configuration against the
layout's `screen_requirements` (a `KeyError`-free access once validated). -/
def can_apply_layout (env : Env) (layout_data : LayoutData) : Bool × String :=
  matches_requirements env.current_config
    (layout_data.screen_requirements.getD ⟨none, none⟩)

/-- The non-exceptional results of `activate_layout` (the `success` dicts). -/
inductive ActivateResult where
  | refused (message : String)
  | activated (layout : String) (rules_applied : Nat) (message : String)
deriving DecidableEq, Repr

/-- `LayoutManager.activate_layout`: refuse if a layout is already active;
load + validate the file; check `matches_requirements`; build the display
map and fill the active slot.  Any raised `LayoutError` leaves the state
untouched. -/
def activate_layout (st : LMState) (env : Env) (layout_name : String) :
    Except String ActivateResult × LMState :=
  match st.active_layout with
  | some a =>
    (.ok (.refused ("Layout '" ++ a.name ++ "' is already active. " ++
      "Deactivate it first before activating another.")), st)
  | none =>
    match load_layout env layout_name with
    | .error e => (.error ("Cannot load layout: " ++ e), st)
    | .ok layout_data =>
      let ca := can_apply_layout env layout_data
      if !ca.1 then
        (.error ("Screen configuration doesn't match layout requirements: " ++
          ca.2), st)
      else
        let display_map := build_display_map env.current_config
        let nm := layout_data.name.getD ""
        let rules_count := (layout_data.rules.getD []).length
        let st' : LMState :=
          ⟨some ⟨nm, layoutFileName layout_name, layout_data, display_map,
            env.now⟩⟩
        (.ok (.activated nm rules_count
          ("Layout '" ++ nm ++ "' activated successfully")), st')

/-- Result dict of `deactivate_layout`. -/
inductive DeactivateResult where
  | refused (message : String)
  | deactivated (layout : String) (message : String)
deriving DecidableEq, Repr

/-- `LayoutManager.deactivate_layout`: clear the slot, or report failure when
none is active. -/
def deactivate_layout (st : LMState) : DeactivateResult × LMState :=
  match st.active_layout with
  | none => (.refused "No active layout to deactivate", st)
  | some a =>
    (.deactivated a.name ("Layout '" ++ a.name ++ "' deactivated successfully"),
      ⟨none⟩)

/-- `LayoutManager.check_active_layout_validity`: `True` when nothing is
active or the active layout still matches; otherwise auto-deactivate and
return `False`. -/
def check_active_layout_validity (st : LMState) (env : Env) : Bool × LMState :=
  match st.active_layout with
  | none => (true, st)
  | some a =>
    let ca := can_apply_layout env a.data
    if !ca.1 then (false, (deactivate_layout st).2)
    else (true, st)

/-- A resolved runtime rule as produced by `get_active_rules`. -/
structure RRule where
  rule_id : String
  match_type : String
  match_value : String
  target_monitor_id : String
  fullscreen : Bool
  maximize : Bool
deriving DecidableEq, Repr

/-- The per-rule loop of `get_active_rules`.  `uuid` stands in for
`uuid.uuid4().hex[:8]` (fresh-id generation for rules without a `rule_id`),
indexed by the rule's position.  Python truthiness makes a missing *or zero*
`target_display` take the "missing target_display" skip. -/
def resolve_rules (uuid : Nat → String) (i : Nat)
    (display_map : List (Int × String)) : List RuleJ → List RRule
  | [] => []
  | r :: rest =>
    match r.target_display with
    | none => resolve_rules uuid (i + 1) display_map rest
    | some td =>
      if td == 0 then
        resolve_rules uuid (i + 1) display_map rest
      else
        match display_map.lookup td with
        | none => resolve_rules uuid (i + 1) display_map rest
        | some target_monitor_id =>
          { rule_id := r.rule_id.getD ("rule_" ++ uuid i)
            match_type := r.match_type.getD ""
            match_value := r.match_value.getD ""
            target_monitor_id := target_monitor_id
            fullscreen := r.fullscreen.getD false
            maximize := r.maximize.getD false } ::
            resolve_rules uuid (i + 1) display_map rest

/-- `LayoutManager.get_active_rules`: read the stored rules of the active
layout and resolve `target_display` through the *stored* display map; the
empty list when no layout is active. -/
def get_active_rules (uuid : Nat → String) (st : LMState) : List RRule :=
  match st.active_layout with
  | none => []
  | some a => resolve_rules uuid 0 a.display_map (a.data.rules.getD [])

/-! ## Window data and rule matching (`window_manager.py`, `layout_manager.py`) -/

/-- A window descriptor as built by `get_all_windows` (the fields the rule
engine touches; `title` is always a string there, the process-derived
fields can be `None`). -/
structure WindowData where
  hwnd : Nat
  title : String
  exe_name : Option String
  app_name : Option String
  process_path : Option String
  is_minimized : Bool
deriving DecidableEq, Repr

/-- `(window.get("exe_name") or window.get("app_name") or "")`. -/
def windowExeRaw (w : WindowData) : String :=
  pyOrS w.exe_name (pyOrS w.app_name "")

/-- The matching test of `layout_manager.find_matching_rule_for_window` for a
single stored rule (dispatch on `match_type`). -/
def layout_rule_matches (r : RuleJ) (w : WindowData) : Bool :=
  let match_value := pyStrip (pyOrS r.match_value "")
  let match_value_lower := pyLower match_value
  if r.match_type == some "exe" then
    let exe_name := pyStrip (windowExeRaw w)
    normalize_exe_name exe_name == normalize_exe_name match_value_lower
  else if r.match_type == some "window_title" then
    let title := pyLower w.title
    match_value_lower != "" && strContains title match_value_lower
  else if r.match_type == some "process_path" then
    let process_path := pyLower (pyOrS w.process_path "")
    match_value_lower != "" && match_value_lower == process_path
  else
    false

/-- `layout_manager.find_matching_rule_for_window`: scan the rules in file
order and return the first whose predicate matches. -/
def find_matching_rule_for_window (window_data : WindowData) :
    List RuleJ → Option RuleJ
  | [] => none
  | rule :: rest =>
    if layout_rule_matches rule window_data then some rule
    else find_matching_rule_for_window window_data rest

/-- The inline matching test of `window_manager.apply_rules` for a resolved
rule (same logic, local `_norm_exe` closure). -/
def rule_matches_window (r : RRule) (w : WindowData) : Bool :=
  let mv := pyStrip r.match_value
  let mv_lower := pyLower mv
  if r.match_type == "exe" then
    let exe_name := pyStrip (windowExeRaw w)
    norm_exe_wm exe_name == norm_exe_wm mv_lower
  else if r.match_type == "window_title" then
    let title := pyLower w.title
    mv_lower != "" && strContains title mv_lower
  else if r.match_type == "process_path" then
    let process_path := pyLower (pyOrS w.process_path "")
    mv_lower != "" && mv_lower == process_path
  else
    false

/-! ## The per-window state machine (`window_manager.py`) -/

/-- The observable state of one window: the monitor containing its center
point, its style word, and its show-state, i.e. what
`get_window_monitor_id`, `GetWindowLong(GWL_STYLE)` and
`GetWindowPlacement` report. -/
structure WinState where
  monitor : Option String
  style : Int
  maximized : Bool
deriving DecidableEq, Repr

/-- `WindowManager.is_window_maximized` (placement equals `SW_SHOWMAXIMIZED`). -/
def is_window_maximized (w : WinState) : Bool :=
  w.maximized

/-- `WindowManager.is_window_on_monitor`: center-point monitor equals the
target. -/
def is_window_on_monitor (w : WinState) (monitor_id : String) : Bool :=
  w.monitor == some monitor_id

/-- `WindowManager.is_window_in_correct_state`: right monitor, then the
desired maximize/fullscreen combination. -/
def is_window_in_correct_state (w : WinState) (monitor_id : String)
    (maximize fullscreen : Bool) : Bool :=
  if !is_window_on_monitor w monitor_id then
    false
  else if fullscreen then
    is_window_fullscreen w.style
  else if maximize then
    is_window_maximized w && !is_window_fullscreen w.style
  else
    !is_window_maximized w && !is_window_fullscreen w.style

/-- Result dict of `apply_window_rule`. -/
structure ApplyOutcome where
  changed : Bool
  operations : List String
deriving DecidableEq, Repr

/-- `WindowManager.apply_window_rule`.  `connected` is whether
`get_connected_monitor(monitor_id)` finds the target; `pre` is the state
observed on entry and `afterMove` the state re-observed after the move +
settle delay (the code re-reads fullscreen/maximized at step 2; nothing has
altered the window when no move happened, so `pre` is observed then). -/
def apply_window_rule (connected : Bool) (pre afterMove : WinState)
    (monitor_id : String) (maximize fullscreen : Bool) : ApplyOutcome :=
  if !connected then
    ⟨false, []⟩
  else if is_window_in_correct_state pre monitor_id maximize fullscreen then
    ⟨false, []⟩
  else
    let needs_move := !is_window_on_monitor pre monitor_id
    let obs := if needs_move then afterMove else pre
    let current_fullscreen := is_window_fullscreen obs.style
    let current_maximized := is_window_maximized obs
    let move_ops := if needs_move then ["move"] else []
    let state_ops :=
      if fullscreen then
        if !current_fullscreen then
          (if !current_maximized then ["maximize"] else []) ++ ["fullscreen"]
        else []
      else if maximize then
        (if current_fullscreen then ["exit_fullscreen"] else []) ++
          (if !current_maximized || current_fullscreen then ["maximize"] else [])
      else
        (if current_fullscreen then ["exit_fullscreen"] else []) ++
          (if current_maximized && !needs_move then ["restore"] else [])
    ⟨true, move_ops ++ state_ops⟩

/-! ## The rule application pass (`WindowManager.apply_rules`)

`apply_window_rule` is an effectful call into the OS; within the pass it is
abstracted as an oracle `app : RRule → WindowData → AppOutcome` that can
report a change, a no-op, or a raised exception (the behaviours the
surrounding `try`/`except` distinguishes). -/

/-- Outcome of one `apply_window_rule` call inside the pass. -/
inductive AppOutcome where
  | changed (operations : List String)
  | unchanged
  | raised (msg : String)
deriving DecidableEq, Repr

/-- One entry of the `details` list of the pass summary. -/
structure Detail where
  rule_id : String
  result : String
  message : String
deriving DecidableEq, Repr

/-- The aggregate summary dict returned by `apply_rules`. -/
structure ApplyResults where
  applied : Nat
  skipped_no_monitor : Nat
  skipped_no_window : Nat
  failed : Nat
  details : List Detail
deriving DecidableEq, Repr

/-- The zero-work summary. -/
def zeroResults : ApplyResults := ⟨0, 0, 0, 0, []⟩

/-- The per-window skip tests of the pass: minimized windows (user opt-out),
empty-titled windows, and the "Program Manager" desktop window. -/
def window_eligible (w : WindowData) : Bool :=
  if w.is_minimized then false
  else if pyStrip w.title == "" then false
  else if pyStrip w.title == "Program Manager" then false
  else true

/-- The inner loop of the pass: apply one rule to each of its matching
windows, catching per-window exceptions. -/
def apply_rule_to_windows (app : RRule → WindowData → AppOutcome) (r : RRule)
    (results : ApplyResults) : List WindowData → ApplyResults
  | [] => results
  | w :: ws =>
    if w.is_minimized then
      apply_rule_to_windows app r results ws
    else if pyStrip w.title == "" then
      apply_rule_to_windows app r results ws
    else if pyStrip w.title == "Program Manager" then
      apply_rule_to_windows app r results ws
    else
      match app r w with
      | .changed _ops =>
        apply_rule_to_windows app r { results with applied := results.applied + 1 } ws
      | .unchanged =>
        apply_rule_to_windows app r results ws
      | .raised msg =>
        apply_rule_to_windows app r
          { results with
              failed := results.failed + 1
              details := results.details ++ [⟨r.rule_id, "error", msg⟩] } ws

/-- The outer loop of the pass: per rule, the connectivity gate, the matching
scan, and the inner loop. -/
def apply_rules_loop (connected : String → Bool)
    (app : RRule → WindowData → AppOutcome) (windows : List WindowData)
    (results : ApplyResults) : List RRule → ApplyResults
  | [] => results
  | r :: rs =>
    if !connected r.target_monitor_id then
      apply_rules_loop connected app windows
        { results with
            skipped_no_monitor := results.skipped_no_monitor + 1
            details := results.details ++
              [⟨r.rule_id, "skipped_no_monitor",
                "Target monitor " ++ r.target_monitor_id ++ " is not connected"⟩] }
        rs
    else
      let matching_windows := windows.filter (fun w => rule_matches_window r w)
      if matching_windows.isEmpty then
        apply_rules_loop connected app windows
          { results with
              skipped_no_window := results.skipped_no_window + 1
              details := results.details ++
                [⟨r.rule_id, "skipped_no_window",
                  "No windows match " ++ r.match_type ++ "=" ++ r.match_value⟩] }
          rs
      else
        apply_rules_loop connected app windows
          (apply_rule_to_windows app r results matching_windows) rs

/-- `WindowManager.apply_rules`: zero-work summary without a layout manager
or without active rules, otherwise the pass over all enumerated windows.
`has_layout_manager` models the `self.layout_manager` null check,
`connected` the post-`detect_monitors` connectivity map, `windows` the
`get_all_windows()` enumeration. -/
def apply_rules (has_layout_manager : Bool) (uuid : Nat → String)
    (st : LMState) (connected : String → Bool)
    (app : RRule → WindowData → AppOutcome) (windows : List WindowData) :
    ApplyResults :=
  if !has_layout_manager then zeroResults
  else
    let rules := get_active_rules uuid st
    if rules.isEmpty then zeroResults
    else apply_rules_loop connected app windows zeroResults rules

/-- The sequence of `(rule, window)` pairs on which the pass invokes the
per-window state machine: for each rule with a connected target, every
matching, eligible window, in pass order. -/
def rule_window_events (connected : String → Bool) (windows : List WindowData) :
    List RRule → List (RRule × WindowData)
  | [] => []
  | r :: rs =>
    (if connected r.target_monitor_id then
      ((windows.filter (fun w => rule_matches_window r w)).filter
        window_eligible).map (fun w => (r, w))
    else []) ++ rule_window_events connected windows rs

/-- Does the oracle report a change for this event? -/
def eventChanged (app : RRule → WindowData → AppOutcome)
    (p : RRule × WindowData) : Bool :=
  match app p.1 p.2 with
  | .changed _ => true
  | _ => false

/-- Does the oracle report a raised exception for this event? -/
def eventRaised (app : RRule → WindowData → AppOutcome)
    (p : RRule × WindowData) : Bool :=
  match app p.1 p.2 with
  | .raised _ => true
  | _ => false

/-! ## Concrete fixtures

Closed scenario data used by the concrete theorems below (a two-monitor
setup mirroring the end-to-end scenario of the documentation, plus the
degenerate configurations that exercise edge cases). -/

/-- A chrome window on monitor `m1`, matched both by executable name and by
title substring. -/
def wChrome : WindowData :=
  ⟨1, "Chrome - page", some "chrome.exe", some "chrome.exe",
    some "c:/apps/chrome.exe", false⟩

/-- Stored rule: exe match on `chrome`, targeting DISPLAY1. -/
def ruleExeJ : RuleJ :=
  ⟨some "r1", some "exe", some "chrome", some 1, some false, some true⟩

/-- Stored rule: title-substring match on `chrome`, targeting DISPLAY2. -/
def ruleTitleJ : RuleJ :=
  ⟨some "r2", some "window_title", some "chrome", some 2, some false, some false⟩

/-- A two-display layout whose two rules both match `wChrome`. -/
def layoutTwoRules : LayoutData :=
  ⟨some "L", some ⟨some 2, some [⟨1, "horizontal"⟩, ⟨2, "horizontal"⟩]⟩,
    some [ruleExeJ, ruleTitleJ]⟩

/-- Manager state with `layoutTwoRules` active, DISPLAY1 → `m2`,
DISPLAY2 → `m3`. -/
def stTwoRules : LMState :=
  ⟨some ⟨"L", "l.json", layoutTwoRules, [(1, "m2"), (2, "m3")], 0⟩⟩

/-- A fixed stand-in for `uuid.uuid4().hex[:8]`. -/
def uuidFixed : Nat → String := fun _ => "00000000"

/-- All monitors connected. -/
def connAll : String → Bool := fun _ => true

/-- An oracle whose every state-machine call reports a move. -/
def appAllMove : RRule → WindowData → AppOutcome := fun _ _ => .changed ["move"]

/-- A valid two-screen layout (vertical DISPLAY1, horizontal DISPLAY2) with
one chrome rule, as stored in `a.json`. -/
def layoutA : LayoutData :=
  ⟨some "Coding", some ⟨some 2, some [⟨1, "vertical"⟩, ⟨2, "horizontal"⟩]⟩,
    some [⟨some "r1", some "exe", some "chrome.exe", some 2, some false,
      some true⟩]⟩

/-- Screen configuration matching `layoutA`. -/
def cfgA : List ScreenCfg :=
  [⟨1, "vertical", "m1", 1080, 1920, "DISPLAY1"⟩,
   ⟨2, "horizontal", "m2", 1920, 1080, "DISPLAY2"⟩]

/-- Environment with `a.json` on disk and `cfgA` live. -/
def envA : Env :=
  ⟨fun n => if n == "a.json" then .parsed layoutA else .missing, cfgA, 7⟩

/-- Environment after DISPLAY2 is unplugged (only DISPLAY1 remains). -/
def envA1 : Env :=
  ⟨fun n => if n == "a.json" then .parsed layoutA else .missing,
    [⟨1, "vertical", "m1", 1080, 1920, "DISPLAY1"⟩], 9⟩

/-- Manager state with `layoutA` active (as `activate_layout` builds it
from `envA`). -/
def stA : LMState :=
  ⟨some ⟨"Coding", "a.json", layoutA, [(1, "m1"), (2, "m2")], 7⟩⟩

/-- A layout whose single screen is the (degenerate) `DISPLAY0`, with one
rule targeting display 0, stored in `z.json`. -/
def layoutZ : LayoutData :=
  ⟨some "Z", some ⟨some 1, some [⟨0, "horizontal"⟩]⟩,
    some [⟨some "rz", some "exe", some "x", some 0, none, none⟩]⟩

/-- Environment whose sole monitor reports connector `DISPLAY0`. -/
def envZ : Env :=
  ⟨fun n => if n == "z.json" then .parsed layoutZ else .missing,
    [⟨0, "horizontal", "m0", 1920, 1080, "DISPLAY0"⟩], 3⟩

/-- Duplicate-display-number configuration: two entries both reporting
display number 1, the first horizontal, the second vertical. -/
def cfgDup : List ScreenCfg :=
  [⟨1, "horizontal", "m1", 1920, 1080, "DISPLAY1"⟩,
   ⟨1, "vertical", "m2", 1080, 1920, "DISPLAY1"⟩]

/-- Requirements satisfied by *some* entry of `cfgDup` for display 1 but not
by its first entry. -/
def reqDup : ScreenRequirements :=
  ⟨some 2, some [⟨1, "vertical"⟩]⟩

/-- The matching predicate in the specification's words: exact total count
when specified, and for every required pair *some* current entry with that
display number and exactly that orientation. -/
def matches_requirements_claimed (current_config : List ScreenCfg)
    (req : ScreenRequirements) : Bool :=
  (match req.total_screens with
   | some t => (current_config.length : Int) == t
   | none => true) &&
  (req.screens.getD []).all (fun rs =>
    current_config.any (fun s =>
      s.display_number == rs.display_number &&
        s.orientation == rs.orientation))

/-- Resolution of a single indexed stored rule against a display map: `none`
exactly for a missing or zero (falsy) `target_display` or one that is not a
key of the map; otherwise the resolved runtime rule with
`target_monitor_id` the map's value. -/
def resolveOne (u : Nat → String) (dm : List (Int × String))
    (p : Nat × RuleJ) : Option RRule :=
  match p.2.target_display with
  | none => none
  | some td =>
    if td == 0 then none
    else
      match dm.lookup td with
      | none => none
      | some mid =>
        some
          { rule_id := p.2.rule_id.getD ("rule_" ++ u p.1)
            match_type := p.2.match_type.getD ""
            match_value := p.2.match_value.getD ""
            target_monitor_id := mid
            fullscreen := p.2.fullscreen.getD false
            maximize := p.2.maximize.getD false }

/-- The `details` entries a pass produces, rule by rule: the
skipped-no-monitor entry, or the skipped-no-window entry, or one error
entry per eligible matching window whose application raised. -/
def pass_details (connected : String → Bool)
    (app : RRule → WindowData → AppOutcome) (windows : List WindowData) :
    List RRule → List Detail
  | [] => []
  | r :: rs =>
    (if !connected r.target_monitor_id then
      [⟨r.rule_id, "skipped_no_monitor",
        "Target monitor " ++ r.target_monitor_id ++ " is not connected"⟩]
    else if (windows.filter (fun w => rule_matches_window r w)).isEmpty then
      [⟨r.rule_id, "skipped_no_window",
        "No windows match " ++ r.match_type ++ "=" ++ r.match_value⟩]
    else
      ((windows.filter (fun w => rule_matches_window r w)).filter
        window_eligible).filterMap
        (fun w =>
          match app r w with
          | .raised m => some ⟨r.rule_id, "error", m⟩
          | _ => none)) ++
    pass_details connected app windows rs

/-- An oracle whose every state-machine call raises. -/
def appRaise : RRule → WindowData → AppOutcome := fun _ _ => .raised "boom"

/-! # Theorems -/

/-- C8: `fingerprints_match` follows the primary-then-secondary order
exactly — `(True, "connector_and_resolution_match")` when the primaries are
equal; otherwise `(False, "primary_mismatch_strict")` under strict mode;
otherwise `(True, "resolution_match")` when the secondaries are equal;
otherwise `(False, "no_match")`; and every fingerprint matches itself via
the primary branch under either strict setting. -/
theorem fingerprints_match_branch_order :
    (∀ (fp1 fp2 : Fingerprint) (strict : Bool),
      (fp1.primary = fp2.primary →
        fingerprints_match fp1 fp2 strict =
          (true, "connector_and_resolution_match")) ∧
      (fp1.primary ≠ fp2.primary →
        fingerprints_match fp1 fp2 true = (false, "primary_mismatch_strict")) ∧
      (fp1.primary ≠ fp2.primary → fp1.secondary = fp2.secondary →
        fingerprints_match fp1 fp2 false = (true, "resolution_match")) ∧
      (fp1.primary ≠ fp2.primary → fp1.secondary ≠ fp2.secondary →
        fingerprints_match fp1 fp2 false = (false, "no_match"))) ∧
    (∀ (fp : Fingerprint) (strict : Bool),
      fingerprints_match fp fp strict =
        (true, "connector_and_resolution_match")) := by
  constructor
  · intro fp1 fp2 strict
    refine ⟨fun h => ?_, fun h => ?_, fun h h2 => ?_, fun h h2 => ?_⟩ <;>
      simp [fingerprints_match, h]
    · simp [h2]
    · simp [h2]
  · intro fp strict
    simp [fingerprints_match]

/-- Witness for C8 at concrete fingerprints: each branch of the theorem
applied to explicit inputs. -/
theorem fingerprints_match_branch_order_witness :
    fingerprints_match ⟨"DISPLAY1_1920x1080", "1920x1080"⟩
      ⟨"DISPLAY1_1920x1080", "1920x1080"⟩ true =
        (true, "connector_and_resolution_match") ∧
    fingerprints_match ⟨"DISPLAY1_1920x1080", "1920x1080"⟩
      ⟨"DISPLAY2_1920x1080", "1920x1080"⟩ true =
        (false, "primary_mismatch_strict") ∧
    fingerprints_match ⟨"DISPLAY1_1920x1080", "1920x1080"⟩
      ⟨"DISPLAY2_1920x1080", "1920x1080"⟩ false =
        (true, "resolution_match") ∧
    fingerprints_match ⟨"DISPLAY1_1920x1080", "1920x1080"⟩
      ⟨"DISPLAY2_1080x1920", "1080x1920"⟩ false = (false, "no_match") := by
  refine ⟨?_, ?_, ?_, ?_⟩
  · exact (fingerprints_match_branch_order.1 _ _ true).1 rfl
  · exact (fingerprints_match_branch_order.1 _ _ true).2.1 (by decide)
  · exact (fingerprints_match_branch_order.1 _ _ false).2.2.1 (by decide) rfl
  · exact (fingerprints_match_branch_order.1 _ _ false).2.2.2 (by decide)
      (by decide)

/-- Evaluation of `is_window_fullscreen` on a nonnegative style word. -/
theorem is_window_fullscreen_ofNat (s : Nat) :
    is_window_fullscreen (Int.ofNat s) =
      (!(s &&& WS_CAPTION != 0) && !(s &&& WS_THICKFRAME != 0)) := by
  have h0 : ¬ ((Int.ofNat s) < 0) := Int.not_lt.mpr (Int.ofNat_nonneg s)
  simp only [is_window_fullscreen, toU32, h0, if_false]
  rfl

/-- Bits outside a mask do not change the masked value. -/
theorem and_xor_of_disjoint (s m c : Nat) (h : m &&& c = 0) :
    (s ^^^ m) &&& c = s &&& c := by
  rw [Nat.and_xor_distrib_right, h, Nat.xor_zero]

/-- C9: a window is judged fullscreen iff its (unsigned) style word has both
the `WS_CAPTION` and `WS_THICKFRAME` masks entirely cleared, and flipping
the `WS_POPUP`, `WS_MINIMIZEBOX` or `WS_MAXIMIZEBOX` bits never changes the
verdict. -/
theorem is_window_fullscreen_style_bits :
    (∀ style : Int,
      (is_window_fullscreen style = true ↔
        ((toU32 style).toNat &&& WS_CAPTION = 0 ∧
          (toU32 style).toNat &&& WS_THICKFRAME = 0))) ∧
    (∀ s : Nat,
      is_window_fullscreen (Int.ofNat (s ^^^ WS_POPUP)) =
        is_window_fullscreen (Int.ofNat s) ∧
      is_window_fullscreen (Int.ofNat (s ^^^ WS_MINIMIZEBOX)) =
        is_window_fullscreen (Int.ofNat s) ∧
      is_window_fullscreen (Int.ofNat (s ^^^ WS_MAXIMIZEBOX)) =
        is_window_fullscreen (Int.ofNat s)) := by
  constructor
  · intro style
    unfold is_window_fullscreen
    simp [bne]
  · intro s
    refine ⟨?_, ?_, ?_⟩ <;>
      rw [is_window_fullscreen_ofNat, is_window_fullscreen_ofNat,
        and_xor_of_disjoint _ _ _ (by decide),
        and_xor_of_disjoint _ _ _ (by decide)]

/-- Witness for C9: the fullscreen verdict on the standard overlapped-window
style (not fullscreen), on a borderless style (fullscreen), and the
`WS_POPUP` bit's irrelevance on a concrete word. -/
theorem is_window_fullscreen_style_bits_witness :
    (is_window_fullscreen 0x00CF0000 = false) ∧
    (is_window_fullscreen 0x80030000 = true) ∧
    is_window_fullscreen (Int.ofNat (0x00030000 ^^^ WS_POPUP)) =
      is_window_fullscreen (Int.ofNat 0x00030000) := by
  refine ⟨?_, ?_, (is_window_fullscreen_style_bits.2 0x00030000).1⟩
  · have h := (is_window_fullscreen_style_bits.1 0x00CF0000)
    revert h
    decide
  · exact (is_window_fullscreen_style_bits.1 0x80030000).2 (by decide)

/-- C7: `apply_window_rule` is a no-op on a window already observed in the
desired combination — on the target monitor, fullscreen when fullscreen is
requested, maximized-and-not-fullscreen when maximize-only is requested,
neither when neither is requested — returning `changed := false` and an
empty operation list, whatever the post-move observation or connectivity. -/
theorem apply_window_rule_noop (connected : Bool) (pre afterMove : WinState)
    (monitor_id : String) (maximize fullscreen : Bool)
    (hmon : is_window_on_monitor pre monitor_id = true)
    (hfs : fullscreen = true → is_window_fullscreen pre.style = true)
    (hmax : fullscreen = false → maximize = true →
      is_window_maximized pre = true ∧ is_window_fullscreen pre.style = false)
    (hnorm : fullscreen = false → maximize = false →
      is_window_maximized pre = false ∧ is_window_fullscreen pre.style = false) :
    apply_window_rule connected pre afterMove monitor_id maximize fullscreen =
      ⟨false, []⟩ := by
  have hstate :
      is_window_in_correct_state pre monitor_id maximize fullscreen = true := by
    unfold is_window_in_correct_state
    rw [hmon]
    cases fullscreen with
    | true => simpa using hfs rfl
    | false =>
      cases maximize with
      | true =>
        have h := hmax rfl rfl
        simp [h.1, h.2]
      | false =>
        have h := hnorm rfl rfl
        simp [h.1, h.2]
  unfold apply_window_rule
  cases connected with
  | false => simp
  | true => simp [hstate]

/-- Witness for C7: a maximized, non-fullscreen window already on the target
monitor under a maximize-only rule is left untouched. -/
theorem apply_window_rule_noop_witness :
    apply_window_rule true ⟨some "m1", 0x00CF0000, true⟩
      ⟨some "m1", 0x00CF0000, true⟩ "m1" true false = ⟨false, []⟩ :=
  apply_window_rule_noop true ⟨some "m1", 0x00CF0000, true⟩
    ⟨some "m1", 0x00CF0000, true⟩ "m1" true false (by decide) (by decide)
    (by decide) (by decide)

/-- Lowercasing preserves emptiness. -/
theorem pyLower_eq_empty_iff (u : String) : pyLower u = "" ↔ u = "" := by
  cases u with
  | mk d => simp [pyLower, String.ext_iff]

/-- If everything a whitespace-drop leaves satisfies the whitespace test,
the drop left nothing. -/
theorem dropWhile_ws_nil_of_all (l : List Char)
    (h : ∀ x ∈ l.dropWhile Char.isWhitespace, Char.isWhitespace x) :
    l.dropWhile Char.isWhitespace = [] := by
  by_contra hne
  have hh := List.head_dropWhile_not Char.isWhitespace l hne
  have hmem := h _ (List.head_mem hne)
  rw [hh] at hmem
  exact Bool.false_ne_true hmem

/-- Stripping is idempotent at the empty string: a second strip yields the
empty string exactly when the first already did. -/
theorem pyStrip_pyStrip_eq_empty (x : String) :
    pyStrip (pyStrip x) = "" ↔ pyStrip x = "" := by
  constructor
  · intro h
    have hdata : (pyStrip x).data =
        ((x.data.dropWhile Char.isWhitespace).reverse.dropWhile
          Char.isWhitespace).reverse := rfl
    have hd : (((pyStrip x).data.dropWhile Char.isWhitespace).reverse.dropWhile
        Char.isWhitespace).reverse = [] := String.ext_iff.mp h
    have hd2 : ((pyStrip x).data.dropWhile Char.isWhitespace).reverse.dropWhile
        Char.isWhitespace = [] := List.reverse_eq_nil_iff.mp hd
    have h1 : ∀ y ∈ ((pyStrip x).data.dropWhile Char.isWhitespace).reverse,
        Char.isWhitespace y := List.dropWhile_eq_nil_iff.mp hd2
    have h2 : (pyStrip x).data.dropWhile Char.isWhitespace = [] :=
      dropWhile_ws_nil_of_all _ (fun y hy => h1 y (List.mem_reverse.mpr hy))
    have h3 : ∀ y ∈ (pyStrip x).data, Char.isWhitespace y :=
      List.dropWhile_eq_nil_iff.mp h2
    have h4 : ∀ y ∈ ((x.data.dropWhile Char.isWhitespace).reverse.dropWhile
        Char.isWhitespace), Char.isWhitespace y := by
      intro y hy
      refine h3 y ?_
      rw [hdata]
      exact List.mem_reverse.mpr hy
    have h5 : (x.data.dropWhile Char.isWhitespace).reverse.dropWhile
        Char.isWhitespace = [] := dropWhile_ws_nil_of_all _ h4
    rw [String.ext_iff, hdata, h5]
    rfl
  · intro h
    rw [h]
    rfl

/-- `normalize_exe_name` erases to the empty string exactly when its
(lowercased, stripped) input is empty. -/
theorem normalize_exe_name_eq_empty_iff (s : String) :
    normalize_exe_name s = "" ↔ pyLower (pyStrip s) = "" := by
  show (if pyEndsWith (pyLower (pyStrip s)) ".exe" then pyLower (pyStrip s)
    else if pyLower (pyStrip s) != "" then pyLower (pyStrip s) ++ ".exe"
    else pyLower (pyStrip s)) = "" ↔ pyLower (pyStrip s) = ""
  by_cases h : pyEndsWith (pyLower (pyStrip s)) ".exe"
  · rw [if_pos h]
  · rw [if_neg h]
    by_cases h2 : pyLower (pyStrip s) != ""
    · rw [if_pos h2]
      constructor
      · intro he
        exfalso
        have hd : (pyLower (pyStrip s) ++ ".exe").data = "".data := by rw [he]
        rw [String.data_append] at hd
        exact absurd (List.append_eq_nil.mp hd).2 (by decide)
      · intro he
        rw [he] at h2
        exact absurd h2 (by decide)
    · rw [if_neg h2]

/-- The two normalizers (module-level and the local closure in
`apply_rules`) are the same function. -/
theorem norm_exe_wm_eq_normalize : norm_exe_wm = normalize_exe_name := rfl

/-- A stripped string normalizes to the empty string exactly when it is
itself empty. -/
theorem norm_exe_wm_pyStrip_eq_empty (x : String) :
    (norm_exe_wm (pyStrip x) = "") ↔ pyStrip x = "" := by
  rw [norm_exe_wm_eq_normalize, normalize_exe_name_eq_empty_iff,
    pyLower_eq_empty_iff, pyStrip_pyStrip_eq_empty]

/-- C10: an `exe` rule with an empty or whitespace-only `match_value`
matches exactly the windows whose resolved executable name (the
`exe_name`-falling-back-to-`app_name` string the matcher reads) strips to
the empty string, because `normalize_exe_name` maps `""` to itself; a
`window_title` or `process_path` rule with an empty `match_value` matches
no window.  Stated for the enforcement predicate (`apply_rules`) and for
the UI predicate (`find_matching_rule_for_window`) alike. -/
theorem empty_match_value_matching :
    (∀ (r : RRule) (w : WindowData), r.match_type = "exe" →
      pyStrip r.match_value = "" →
      (rule_matches_window r w = true ↔ pyStrip (windowExeRaw w) = "")) ∧
    (∀ (r : RRule) (w : WindowData),
      (r.match_type = "window_title" ∨ r.match_type = "process_path") →
      pyStrip r.match_value = "" → rule_matches_window r w = false) ∧
    (∀ (r : RuleJ) (w : WindowData), r.match_type = some "exe" →
      pyStrip (pyOrS r.match_value "") = "" →
      (layout_rule_matches r w = true ↔ pyStrip (windowExeRaw w) = "")) ∧
    (∀ (r : RuleJ) (w : WindowData),
      (r.match_type = some "window_title" ∨ r.match_type = some "process_path") →
      pyStrip (pyOrS r.match_value "") = "" →
      layout_rule_matches r w = false) ∧
    normalize_exe_name "" = "" := by
  refine ⟨?_, ?_, ?_, ?_, by decide⟩
  · intro r w hm hv
    rw [show rule_matches_window r w =
        (norm_exe_wm (pyStrip (windowExeRaw w)) ==
          norm_exe_wm (pyLower (pyStrip r.match_value))) from by
      simp [rule_matches_window, hm]]
    rw [hv]
    show (norm_exe_wm (pyStrip (windowExeRaw w)) == "") = true ↔ _
    rw [beq_iff_eq]
    exact norm_exe_wm_pyStrip_eq_empty _
  · intro r w hm hv
    rcases hm with hm | hm <;>
      · simp [rule_matches_window, hm, hv]
        intro h
        exact absurd h (by decide)
  · intro r w hm hv
    rw [show layout_rule_matches r w =
        (normalize_exe_name (pyStrip (windowExeRaw w)) ==
          normalize_exe_name (pyLower (pyStrip (pyOrS r.match_value "")))) from by
      simp [layout_rule_matches, hm]]
    rw [hv]
    show (normalize_exe_name (pyStrip (windowExeRaw w)) == "") = true ↔ _
    rw [beq_iff_eq, ← norm_exe_wm_eq_normalize]
    exact norm_exe_wm_pyStrip_eq_empty _
  · intro r w hm hv
    rcases hm with hm | hm <;>
      · simp [layout_rule_matches, hm, hv]
        intro h
        exact absurd h (by decide)

/-- Witness for C10: an empty-valued exe rule matches a window with an
unresolvable executable but not a chrome window; an empty-valued title rule
matches nothing. -/
theorem empty_match_value_matching_witness :
    rule_matches_window ⟨"r0", "exe", "  ", "m1", false, false⟩
      ⟨2, "anon window", none, none, none, false⟩ = true ∧
    rule_matches_window ⟨"r0", "exe", "  ", "m1", false, false⟩ wChrome = false ∧
    rule_matches_window ⟨"r0", "window_title", "", "m1", false, false⟩
      wChrome = false := by
  refine ⟨?_, ?_, ?_⟩
  · exact (empty_match_value_matching.1
      ⟨"r0", "exe", "  ", "m1", false, false⟩
      ⟨2, "anon window", none, none, none, false⟩ rfl (by decide)).mpr (by decide)
  · have h := empty_match_value_matching.1
      ⟨"r0", "exe", "  ", "m1", false, false⟩ wChrome rfl (by decide)
    revert h
    decide
  · exact empty_match_value_matching.2.1
      ⟨"r0", "window_title", "", "m1", false, false⟩ wChrome (Or.inl rfl)
      (by decide)

/-- The per-screen check succeeds iff for every required screen the *first*
current entry with its display number exists and has the required
orientation. -/
theorem check_required_screens_fst_iff (cc : List ScreenCfg)
    (l : List ReqScreen) :
    (check_required_screens cc l).1 = true ↔
      ∀ rs ∈ l, ∃ cs,
        cc.find? (fun s => s.display_number == rs.display_number) = some cs ∧
        cs.orientation = rs.orientation := by
  induction l with
  | nil => simp [check_required_screens]
  | cons rs rest ih =>
    simp only [check_required_screens]
    split
    · rename_i hf
      simp only [List.mem_cons]
      constructor
      · intro h
        exact absurd h (by simp)
      · intro h
        obtain ⟨cs, hcs, -⟩ := h rs (Or.inl rfl)
        rw [hf] at hcs
        cases hcs
    · rename_i cs hf
      split
      · rename_i ho
        simp only [List.mem_cons]
        constructor
        · intro h
          exact absurd h (by simp)
        · intro h
          exfalso
          obtain ⟨cs', hcs', ho'⟩ := h rs (Or.inl rfl)
          rw [hf] at hcs'
          injection hcs' with he
          subst he
          rw [ho'] at ho
          simp at ho
      · rename_i ho
        rw [ih]
        constructor
        · intro h rs' hrs'
          rcases List.mem_cons.mp hrs' with he | hmem
          · subst he
            exact ⟨cs, hf, by simpa using ho⟩
          · exact h rs' hmem
        · intro h rs' hrs'
          exact h rs' (List.mem_cons_of_mem _ hrs')

/-- A successful per-screen check reports `"All requirements met"`. -/
theorem check_required_screens_true_reason (cc : List ScreenCfg)
    (l : List ReqScreen) :
    (check_required_screens cc l).1 = true →
      (check_required_screens cc l).2 = "All requirements met" := by
  induction l with
  | nil => intro; rfl
  | cons rs rest ih =>
    simp only [check_required_screens]
    split
    · intro h
      exact absurd h (by simp)
    · split
      · intro h
        exact absurd h (by simp)
      · exact ih

/-- A failed per-screen check reports a reason naming an offending required
display (either not found, or found with the wrong orientation of its
first current entry). -/
theorem check_required_screens_false_reason (cc : List ScreenCfg)
    (l : List ReqScreen) :
    (check_required_screens cc l).1 = false →
      ∃ rs ∈ l,
        (check_required_screens cc l).2 =
          "DISPLAY" ++ toString rs.display_number ++
            " not found (required for layout)" ∨
        ∃ cs,
          cc.find? (fun s => s.display_number == rs.display_number) = some cs ∧
          (check_required_screens cc l).2 =
            "DISPLAY" ++ toString rs.display_number ++ " is " ++
              cs.orientation ++ ", but layout needs " ++ rs.orientation := by
  induction l with
  | nil =>
    intro h
    exact absurd h (by simp [check_required_screens])
  | cons rs rest ih =>
    simp only [check_required_screens]
    split
    · intro _
      exact ⟨rs, List.mem_cons_self rs rest, Or.inl rfl⟩
    · rename_i cs hf
      split
      · intro _
        exact ⟨rs, List.mem_cons_self rs rest, Or.inr ⟨cs, hf, rfl⟩⟩
      · intro h
        obtain ⟨rs', hmem, hr⟩ := ih h
        exact ⟨rs', List.mem_cons_of_mem _ hmem, hr⟩

/-- C5 counterexample: with two current entries sharing display number 1
(first horizontal, second vertical) and a requirement of `{1, vertical}`,
the claimed existential reading says the requirements are met, yet
`matches_requirements` returns `False` — only the *first* entry with the
display number is consulted. -/
theorem matches_requirements_existential_counterexample :
    matches_requirements_claimed cfgDup reqDup = true ∧
    matches_requirements cfgDup reqDup =
      (false, "DISPLAY1 is horizontal, but layout needs vertical") := by
  decide

/-- C5 (amended): `matches_requirements` returns `(True, reason)` iff the
total-screen count matches exactly when specified and, for every required
`{display_number, orientation}` pair, the *first* entry of `current_config`
with that display number exists and has exactly that orientation; the
successful reason is `"All requirements met"`; a count mismatch fails
immediately with a reason naming both counts; any other failure names an
offending required display.  No partial match is ever produced. -/
theorem matches_requirements_first_entry_semantics (cc : List ScreenCfg)
    (req : ScreenRequirements) :
    ((matches_requirements cc req).1 = true ↔
      ((∀ t, req.total_screens = some t → (cc.length : Int) = t) ∧
        ∀ rs ∈ req.screens.getD [], ∃ cs,
          cc.find? (fun s => s.display_number == rs.display_number) = some cs ∧
          cs.orientation = rs.orientation)) ∧
    ((matches_requirements cc req).1 = true →
      (matches_requirements cc req).2 = "All requirements met") ∧
    (∀ t, req.total_screens = some t → (cc.length : Int) ≠ t →
      matches_requirements cc req =
        (false, "Need exactly " ++ toString t ++ " screen(s), but " ++
          toString cc.length ++ " connected")) ∧
    ((matches_requirements cc req).1 = false →
      (∀ t, req.total_screens = some t → (cc.length : Int) = t) →
      ∃ rs ∈ req.screens.getD [],
        (matches_requirements cc req).2 =
          "DISPLAY" ++ toString rs.display_number ++
            " not found (required for layout)" ∨
        ∃ cs,
          cc.find? (fun s => s.display_number == rs.display_number) = some cs ∧
          (matches_requirements cc req).2 =
            "DISPLAY" ++ toString rs.display_number ++ " is " ++
              cs.orientation ++ ", but layout needs " ++ rs.orientation) := by
  rcases ht : req.total_screens with _ | t0
  · have hm : matches_requirements cc req =
        check_required_screens cc (req.screens.getD []) := by
      unfold matches_requirements
      rw [ht]
    refine ⟨?_, ?_, ?_, ?_⟩
    · rw [hm, check_required_screens_fst_iff]
      constructor
      · intro h
        refine ⟨fun t h' => ?_, h⟩
        cases h'
      · intro h
        exact h.2
    · rw [hm]
      exact check_required_screens_true_reason cc _
    · intro t h'
      cases h'
    · rw [hm]
      intro h _
      exact check_required_screens_false_reason cc _ h
  · by_cases hlen : (cc.length : Int) = t0
    · have hm : matches_requirements cc req =
          check_required_screens cc (req.screens.getD []) := by
        unfold matches_requirements
        rw [ht]
        dsimp only
        rw [if_neg (by simp [hlen])]
      refine ⟨?_, ?_, ?_, ?_⟩
      · rw [hm, check_required_screens_fst_iff]
        constructor
        · intro h
          refine ⟨fun t h' => ?_, h⟩
          injection h' with h'
          rw [← h']
          exact hlen
        · intro h
          exact h.2
      · rw [hm]
        exact check_required_screens_true_reason cc _
      · intro t h' hne
        injection h' with h'
        subst h'
        exact absurd hlen hne
      · rw [hm]
        intro h _
        exact check_required_screens_false_reason cc _ h
    · have hm : matches_requirements cc req =
          (false, "Need exactly " ++ toString t0 ++ " screen(s), but " ++
            toString cc.length ++ " connected") := by
        unfold matches_requirements
        rw [ht]
        dsimp only
        rw [if_pos (by simpa using hlen)]
      refine ⟨?_, ?_, ?_, ?_⟩
      · rw [hm]
        constructor
        · intro h
          exact absurd h (by simp)
        · intro h
          exact absurd (h.1 t0 rfl) hlen
      · rw [hm]
        intro h
        exact absurd h (by simp)
      · intro t h' _
        injection h' with h'
        subst h'
        exact hm
      · intro _ h
        exact absurd (h t0 rfl) hlen

/-- Witness for C5 (amended): a count mismatch on the concrete two-screen
configuration produces the exact counting reason, and the satisfied
two-screen requirements evaluate to `(True, "All requirements met")`. -/
theorem matches_requirements_first_entry_semantics_witness :
    matches_requirements cfgA ⟨some 3, some []⟩ =
      (false, "Need exactly 3 screen(s), but 2 connected") ∧
    matches_requirements cfgA
      ⟨some 2, some [⟨1, "vertical"⟩, ⟨2, "horizontal"⟩]⟩ =
        (true, "All requirements met") := by
  constructor
  · exact (matches_requirements_first_entry_semantics cfgA
      ⟨some 3, some []⟩).2.2.1 3 rfl (by decide)
  · have h := (matches_requirements_first_entry_semantics cfgA
      ⟨some 2, some [⟨1, "vertical"⟩, ⟨2, "horizontal"⟩]⟩).2.1
    have hb : (matches_requirements cfgA
        ⟨some 2, some [⟨1, "vertical"⟩, ⟨2, "horizontal"⟩]⟩).1 = true := by
      decide
    have hr := h hb
    have : matches_requirements cfgA
        ⟨some 2, some [⟨1, "vertical"⟩, ⟨2, "horizontal"⟩]⟩ =
        ((matches_requirements cfgA
          ⟨some 2, some [⟨1, "vertical"⟩, ⟨2, "horizontal"⟩]⟩).1,
         (matches_requirements cfgA
          ⟨some 2, some [⟨1, "vertical"⟩, ⟨2, "horizontal"⟩]⟩).2) := rfl
    rw [this, hb, hr]

/-- C2: `activate_layout` is guarded and all-or-nothing.  With a layout
already active it returns the refusal result and the whole state — name,
data, display map, activation time — is exactly unchanged; from the
inactive state, any failure (file missing, invalid JSON, invalid structure,
or unmatched screen requirements — every `LayoutError` path) leaves the
state exactly as it was, so no active layout is set afterwards. -/
theorem activate_layout_all_or_nothing (st : LMState) (env : Env)
    (layout_name : String) :
    (∀ a, st.active_layout = some a →
      activate_layout st env layout_name =
        (.ok (.refused ("Layout '" ++ a.name ++ "' is already active. " ++
          "Deactivate it first before activating another.")), st)) ∧
    (st.active_layout = none →
      ∀ e, (activate_layout st env layout_name).1 = .error e →
        (activate_layout st env layout_name).2 = st) := by
  constructor
  · intro a ha
    unfold activate_layout
    rw [ha]
  · intro hn e herr
    unfold activate_layout at herr ⊢
    rw [hn] at herr ⊢
    cases hl : load_layout env layout_name with
    | error m => rfl
    | ok d =>
      rw [hl] at herr
      by_cases hca : (can_apply_layout env d).1 = true
      · simp [hca] at herr
      · simp [hca]

/-- Witness for C2: activating `b` while `Coding` is active refuses and
keeps the state; activating a missing layout from the empty state errors
and leaves the slot empty. -/
theorem activate_layout_all_or_nothing_witness :
    activate_layout stA envA "b" =
      (.ok (.refused ("Layout 'Coding' is already active. " ++
        "Deactivate it first before activating another.")), stA) ∧
    (activate_layout ⟨none⟩ envA "missing").2 = ⟨none⟩ := by
  constructor
  · exact (activate_layout_all_or_nothing stA envA "b").1 _ rfl
  · exact (activate_layout_all_or_nothing ⟨none⟩ envA "missing").2 rfl
      "Cannot load layout: Layout file not found: missing.json" rfl

/-- C3: `check_active_layout_validity` returns `True` and preserves the
state when no layout is active or the active layout's requirements still
match; when they no longer match it returns `False` with the active slot
emptied, after which `get_active_rules` returns the empty list — and stays
empty under further deactivations and validity checks until a new
activation. -/
theorem check_active_layout_validity_spec (st : LMState) (env : Env) :
    (st.active_layout = none →
      check_active_layout_validity st env = (true, st)) ∧
    (∀ a, st.active_layout = some a →
      (can_apply_layout env a.data).1 = true →
      check_active_layout_validity st env = (true, st)) ∧
    (∀ a, st.active_layout = some a →
      (can_apply_layout env a.data).1 = false →
      check_active_layout_validity st env = (false, ⟨none⟩) ∧
      ∀ u, get_active_rules u (check_active_layout_validity st env).2 = []) ∧
    (∀ st' : LMState, st'.active_layout = none →
      (∀ u, get_active_rules u st' = []) ∧
      (deactivate_layout st').2 = st' ∧
      ∀ env', (check_active_layout_validity st' env').2 = st') := by
  refine ⟨?_, ?_, ?_, ?_⟩
  · intro hn
    unfold check_active_layout_validity
    rw [hn]
  · intro a ha hca
    unfold check_active_layout_validity
    rw [ha]
    simp [hca]
  · intro a ha hca
    have hc : check_active_layout_validity st env = (false, ⟨none⟩) := by
      unfold check_active_layout_validity deactivate_layout
      rw [ha]
      simp [hca]
    refine ⟨hc, fun u => ?_⟩
    rw [hc]
    rfl
  · intro st' hn
    refine ⟨fun u => ?_, ?_, fun env' => ?_⟩
    · unfold get_active_rules
      rw [hn]
    · unfold deactivate_layout
      rw [hn]
    · unfold check_active_layout_validity
      rw [hn]

/-- Witness for C3: with `Coding` active, the check passes under the full
configuration; after DISPLAY2 disappears it revokes the layout, empties the
slot, and active rules become empty. -/
theorem check_active_layout_validity_spec_witness :
    check_active_layout_validity stA envA = (true, stA) ∧
    check_active_layout_validity stA envA1 = (false, ⟨none⟩) ∧
    get_active_rules uuidFixed (check_active_layout_validity stA envA1).2 =
      [] := by
  refine ⟨?_, ?_, ?_⟩
  · exact (check_active_layout_validity_spec stA envA).2.1 _ rfl (by decide)
  · exact ((check_active_layout_validity_spec stA envA1).2.2.1 _ rfl
      (by decide)).1
  · exact ((check_active_layout_validity_spec stA envA1).2.2.1 _ rfl
      (by decide)).2 uuidFixed

/-- The rule-resolution loop is the indexed `filterMap` of `resolveOne`. -/
theorem resolve_rules_eq_filterMap (u : Nat → String)
    (dm : List (Int × String)) :
    ∀ (i : Nat) (l : List RuleJ),
      resolve_rules u i dm l = (l.enumFrom i).filterMap (resolveOne u dm) := by
  intro i l
  induction l generalizing i with
  | nil => rfl
  | cons r rest ih =>
    simp only [resolve_rules, List.enumFrom, List.filterMap]
    cases ht : r.target_display with
    | none =>
      simp [resolveOne, ht, ih]
    | some td =>
      by_cases h0 : td == 0
      · simp [resolveOne, ht, h0, ih]
      · cases hl : dm.lookup td with
        | none => simp [resolveOne, ht, h0, hl, ih]
        | some mid => simp [resolveOne, ht, h0, hl, ih]

/-- C4 counterexample: a layout whose screen slot is the degenerate
`DISPLAY0` activates successfully, its stored rule's `target_display` 0
*is* a key of the display map computed at activation, yet
`get_active_rules` yields no resolved rule for it — Python truthiness makes
a zero `target_display` take the missing-field skip. -/
theorem get_active_rules_zero_display_counterexample :
    (activate_layout ⟨none⟩ envZ "z").2 =
      ⟨some ⟨"Z", "z.json", layoutZ, [(0, "m0")], 3⟩⟩ ∧
    layoutZ.rules =
      some [⟨some "rz", some "exe", some "x", some 0, none, none⟩] ∧
    List.lookup (0 : Int) [((0 : Int), "m0")] = some "m0" ∧
    get_active_rules uuidFixed (activate_layout ⟨none⟩ envZ "z").2 = [] := by
  refine ⟨by decide, rfl, by decide, by decide⟩

/-- C4 (amended): with a layout active, `get_active_rules` yields one
resolved rule for exactly those stored rules whose `target_display` is
present, nonzero and a key of the stored display map — with
`target_monitor_id` the map's value for it — and the map is the one
captured at activation: activating from the inactive state stores
`build_display_map` of the activation-time configuration, and a validity
check that still passes leaves the state (hence the stored map) untouched;
`get_active_rules` reads no live monitor state at all. -/
theorem get_active_rules_resolution (u : Nat → String) (st : LMState) :
    (∀ a, st.active_layout = some a →
      get_active_rules u st =
        ((a.data.rules.getD []).enum).filterMap (resolveOne u a.display_map)) ∧
    (∀ (env : Env) (name : String) res st',
      activate_layout ⟨none⟩ env name = (res, st') →
      ∀ a, st'.active_layout = some a →
        a.display_map = build_display_map env.current_config) ∧
    (∀ env : Env, (check_active_layout_validity st env).1 = true →
      (check_active_layout_validity st env).2 = st) := by
  refine ⟨?_, ?_, ?_⟩
  · intro a ha
    unfold get_active_rules
    rw [ha]
    exact resolve_rules_eq_filterMap u a.display_map 0 _
  · intro env name res st' hact a ha'
    unfold activate_layout at hact
    cases hl : load_layout env name with
    | error m =>
      rw [hl] at hact
      injection hact with h1 h2
      subst h2
      exact Option.noConfusion ha'
    | ok d =>
      rw [hl] at hact
      by_cases hca : (can_apply_layout env d).1 = true
      · simp only [hca] at hact
        simp at hact
        obtain ⟨h1, h2⟩ := hact
        subst h2
        injection ha' with he
        subst he
        rfl
      · simp [hca] at hact
        obtain ⟨h1, h2⟩ := hact
        subst h2
        exact Option.noConfusion ha'
  · intro env hchk
    unfold check_active_layout_validity at hchk ⊢
    cases ha : st.active_layout with
    | none => rfl
    | some a =>
      rw [ha] at hchk
      by_cases hca : (can_apply_layout env a.data).1 = true
      · simp [hca]
      · simp [hca] at hchk

/-- Witness for C4: the two-rule fixture state resolves via the stored map,
and a passing validity check on the `Coding` state changes nothing. -/
theorem get_active_rules_resolution_witness :
    get_active_rules uuidFixed stTwoRules =
      ((layoutTwoRules.rules.getD []).enum).filterMap
        (resolveOne uuidFixed [(1, "m2"), (2, "m3")]) ∧
    (check_active_layout_validity stA envA).2 = stA := by
  constructor
  · exact (get_active_rules_resolution uuidFixed stTwoRules).1 _ rfl
  · exact (get_active_rules_resolution uuidFixed stA).2.2 envA (by decide)

/-- Characterization of the inner loop: applied and failed counts grow by
the number of eligible windows whose application reported a change or
raised, one error detail is appended per raised application, the skip
counters are untouched, and the loop always terminates normally. -/
theorem apply_rule_to_windows_spec (app : RRule → WindowData → AppOutcome)
    (r : RRule) :
    ∀ (l : List WindowData) (res : ApplyResults),
      apply_rule_to_windows app r res l =
        { applied := res.applied +
            ((l.filter window_eligible).filter
              (fun w => eventChanged app (r, w))).length
          skipped_no_monitor := res.skipped_no_monitor
          skipped_no_window := res.skipped_no_window
          failed := res.failed +
            ((l.filter window_eligible).filter
              (fun w => eventRaised app (r, w))).length
          details := res.details ++
            (l.filter window_eligible).filterMap
              (fun w =>
                match app r w with
                | .raised m => some ⟨r.rule_id, "error", m⟩
                | _ => none) } := by
  intro l
  induction l with
  | nil => intro res; simp [apply_rule_to_windows]
  | cons w ws ih =>
    intro res
    by_cases h1 : w.is_minimized
    · simp [apply_rule_to_windows, window_eligible, h1, ih]
    · by_cases h2 : pyStrip w.title == ""
      · simp [apply_rule_to_windows, window_eligible, h1, h2, ih]
      · by_cases h3 : pyStrip w.title == "Program Manager"
        · simp [apply_rule_to_windows, window_eligible, h1, h2, h3, ih]
        · cases ha : app r w with
          | changed ops =>
            simp [apply_rule_to_windows, window_eligible, h1, h2, h3, ha, ih,
              eventChanged, eventRaised]
            omega
          | unchanged =>
            simp [apply_rule_to_windows, window_eligible, h1, h2, h3, ha, ih,
              eventChanged, eventRaised]
          | raised m =>
            simp [apply_rule_to_windows, window_eligible, h1, h2, h3, ha, ih,
              eventChanged, eventRaised]
            omega

/-- Characterization of the pass: each counter equals a count over the
rules and the state-machine events, and the details list is `pass_details`;
in particular no outcome of any per-window application ends the pass. -/
theorem apply_rules_loop_spec (connected : String → Bool)
    (app : RRule → WindowData → AppOutcome) (windows : List WindowData) :
    ∀ (rules : List RRule) (res : ApplyResults),
      apply_rules_loop connected app windows res rules =
        { applied := res.applied +
            ((rule_window_events connected windows rules).filter
              (eventChanged app)).length
          skipped_no_monitor := res.skipped_no_monitor +
            (rules.filter (fun r => !connected r.target_monitor_id)).length
          skipped_no_window := res.skipped_no_window +
            (rules.filter (fun r => connected r.target_monitor_id &&
              (windows.filter (fun w => rule_matches_window r w)).isEmpty)).length
          failed := res.failed +
            ((rule_window_events connected windows rules).filter
              (eventRaised app)).length
          details := res.details ++
            pass_details connected app windows rules } := by
  intro rules
  induction rules with
  | nil =>
    intro res
    simp [apply_rules_loop, rule_window_events, pass_details]
  | cons r rs ih =>
    intro res
    by_cases hc : connected r.target_monitor_id
    · by_cases hm :
          (windows.filter (fun w => rule_matches_window r w)).isEmpty
      · have hmn : windows.filter (fun w => rule_matches_window r w) = [] :=
          List.isEmpty_iff.mp hm
        simp only [apply_rules_loop, hc, hm, Bool.not_true, if_false,
          Bool.false_eq_true, if_true, ih]
        simp [rule_window_events, pass_details, hc, hm, hmn,
          List.append_assoc]
        omega
      · simp only [apply_rules_loop, hc, hm, Bool.not_true, Bool.false_eq_true,
          if_false]
        rw [apply_rule_to_windows_spec, ih]
        simp [rule_window_events, pass_details, hc, hm, List.filter_append,
          List.length_append, List.filter_map, List.filterMap_append,
          List.filterMap_map, List.length_map, List.append_assoc,
          Function.comp_def]
        constructor
        · omega
        · omega
    · simp only [apply_rules_loop, hc, Bool.not_false, if_true]
      rw [ih]
      simp [rule_window_events, pass_details, hc, List.append_assoc]
      omega

/-- Exactly the raised applications leave `"error"` entries in the details:
skip entries are filtered away and each raised event contributes its
message under its rule's id, in pass order. -/
theorem pass_details_error_entries (connected : String → Bool)
    (app : RRule → WindowData → AppOutcome) (windows : List WindowData) :
    ∀ rules : List RRule,
      (pass_details connected app windows rules).filter
          (fun d => d.result == "error") =
        (rule_window_events connected windows rules).filterMap
          (fun p =>
            match app p.1 p.2 with
            | .raised m => some ⟨p.1.rule_id, "error", m⟩
            | _ => none) := by
  intro rules
  induction rules with
  | nil => rfl
  | cons r rs ih =>
    by_cases hc : connected r.target_monitor_id
    · by_cases hm :
          (windows.filter (fun w => rule_matches_window r w)).isEmpty
      · have hmn : windows.filter (fun w => rule_matches_window r w) = [] :=
          List.isEmpty_iff.mp hm
        simp [pass_details, rule_window_events, hc, hm, hmn, ih,
          List.filter_append,
          (by decide : (("skipped_no_window" : String) == "error") = false)]
      · simp only [pass_details, rule_window_events, hc, hm, Bool.not_true,
          Bool.false_eq_true, if_false, if_true, List.filter_append, ih,
          List.filterMap_append, List.filterMap_map]
        congr 1
        rw [List.filter_filterMap]
        congr 1
        funext w
        cases ha : app r w <;> simp [ha, Option.filter, Function.comp_def]
    · simp [pass_details, rule_window_events, hc, ih, List.filter_append,
        (by decide : (("skipped_no_monitor" : String) == "error") = false)]

/-- C6: `apply_rules` never propagates a per-window exception — with no
layout manager or no active rules it is the zero-work summary, and in
general every counter is a total over the whole pass: `failed` counts
exactly the raised per-window applications (each with an `"error"` detail
entry carrying its message), `skipped_no_monitor` the rules with a
disconnected target, `skipped_no_window` the connected rules with no
matching window, `applied` the changed applications — so a raised
application never prevents the remaining windows and rules from being
processed. -/
theorem apply_rules_error_containment (u : Nat → String) (st : LMState)
    (connected : String → Bool) (app : RRule → WindowData → AppOutcome)
    (windows : List WindowData) :
    (apply_rules false u st connected app windows = zeroResults) ∧
    (get_active_rules u st = [] →
      apply_rules true u st connected app windows = zeroResults) ∧
    (apply_rules true u st connected app windows =
      { applied := ((rule_window_events connected windows
            (get_active_rules u st)).filter (eventChanged app)).length
        skipped_no_monitor := ((get_active_rules u st).filter
            (fun r => !connected r.target_monitor_id)).length
        skipped_no_window := ((get_active_rules u st).filter
            (fun r => connected r.target_monitor_id &&
              (windows.filter (fun w => rule_matches_window r w)).isEmpty)).length
        failed := ((rule_window_events connected windows
            (get_active_rules u st)).filter (eventRaised app)).length
        details := pass_details connected app windows
          (get_active_rules u st) }) ∧
    ((apply_rules true u st connected app windows).details.filter
        (fun d => d.result == "error") =
      (rule_window_events connected windows (get_active_rules u st)).filterMap
        (fun p =>
          match app p.1 p.2 with
          | .raised m => some ⟨p.1.rule_id, "error", m⟩
          | _ => none)) := by
  have hmain : apply_rules true u st connected app windows =
      { applied := ((rule_window_events connected windows
            (get_active_rules u st)).filter (eventChanged app)).length
        skipped_no_monitor := ((get_active_rules u st).filter
            (fun r => !connected r.target_monitor_id)).length
        skipped_no_window := ((get_active_rules u st).filter
            (fun r => connected r.target_monitor_id &&
              (windows.filter (fun w => rule_matches_window r w)).isEmpty)).length
        failed := ((rule_window_events connected windows
            (get_active_rules u st)).filter (eventRaised app)).length
        details := pass_details connected app windows
          (get_active_rules u st) } := by
    unfold apply_rules
    by_cases hr : (get_active_rules u st).isEmpty
    · have hrn : get_active_rules u st = [] := List.isEmpty_iff.mp hr
      rw [hrn] at *
      simp [hr, hrn, zeroResults, rule_window_events, pass_details]
    · simp only [hr, Bool.not_true, Bool.false_eq_true, if_false, if_true]
      rw [apply_rules_loop_spec]
      simp [zeroResults]
  refine ⟨rfl, ?_, hmain, ?_⟩
  · intro hrn
    unfold apply_rules
    simp [hrn]
  · rw [hmain]
    exact pass_details_error_entries connected app windows _

/-- Witness for C6: an empty active-rule set produces the zero-work
summary, and with every application raising, the two-rule fixture counts
two failures with their two error details and aborts nothing. -/
theorem apply_rules_error_containment_witness :
    apply_rules true uuidFixed (⟨none⟩ : LMState) connAll appAllMove
      [wChrome] = zeroResults ∧
    apply_rules true uuidFixed stTwoRules connAll appRaise [wChrome] =
      ⟨0, 0, 0, 2, [⟨"r1", "error", "boom"⟩, ⟨"r2", "error", "boom"⟩]⟩ := by
  constructor
  · exact (apply_rules_error_containment uuidFixed ⟨none⟩ connAll appAllMove
      [wChrome]).2.1 rfl
  · rw [(apply_rules_error_containment uuidFixed stTwoRules connAll appRaise
      [wChrome]).2.2.1]
    decide

/-- C1 counterexample: with the two-rule layout active, the chrome window
matches *both* rules, and one enforcement pass applies both of them to that
same window — `applied = 2` and the event trace shows rule `r2`, later in
file order, applied to hwnd 1 right after `r1` — refuting
first-matching-rule-wins at enforcement time. -/
theorem apply_rules_not_first_match_counterexample :
    rule_matches_window ⟨"r1", "exe", "chrome", "m2", false, true⟩
      wChrome = true ∧
    rule_matches_window ⟨"r2", "window_title", "chrome", "m3", false, false⟩
      wChrome = true ∧
    get_active_rules uuidFixed stTwoRules =
      [⟨"r1", "exe", "chrome", "m2", false, true⟩,
       ⟨"r2", "window_title", "chrome", "m3", false, false⟩] ∧
    (rule_window_events connAll [wChrome]
        (get_active_rules uuidFixed stTwoRules)).map
      (fun p => (p.1.rule_id, p.2.hwnd)) = [("r1", 1), ("r2", 1)] ∧
    apply_rules true uuidFixed stTwoRules connAll appAllMove [wChrome] =
      ⟨2, 0, 0, 0, []⟩ := by
  decide

/-- C1 (amended): first-matching-rule-wins holds for the UI predicate —
`find_matching_rule_for_window` is exactly `List.find?` of the matching
test over the rules in file order — but at enforcement time `apply_rules`
treats every rule independently: every active rule with a connected target
is applied to every eligible window its predicate matches, so a window
matching several rules is processed once per matching rule, in file order,
and `applied` counts every changed (rule, window) application. -/
theorem rule_matching_first_match_ui_not_enforcement :
    (∀ (w : WindowData) (rules : List RuleJ),
      find_matching_rule_for_window w rules =
        rules.find? (fun r => layout_rule_matches r w)) ∧
    (∀ (connected : String → Bool) (rules : List RRule)
        (windows : List WindowData) (r : RRule) (w : WindowData),
      r ∈ rules → w ∈ windows → connected r.target_monitor_id = true →
      rule_matches_window r w = true → window_eligible w = true →
      (r, w) ∈ rule_window_events connected windows rules) ∧
    (∀ (u : Nat → String) (st : LMState) (connected : String → Bool)
        (app : RRule → WindowData → AppOutcome) (windows : List WindowData),
      (apply_rules true u st connected app windows).applied =
        ((rule_window_events connected windows (get_active_rules u st)).filter
          (eventChanged app)).length) := by
  refine ⟨?_, ?_, ?_⟩
  · intro w rules
    induction rules with
    | nil => rfl
    | cons r rest ih =>
      by_cases h : layout_rule_matches r w
      · simp [find_matching_rule_for_window, h, List.find?_cons_of_pos]
      · simp only [find_matching_rule_for_window, h, Bool.false_eq_true,
          if_false]
        rw [List.find?_cons_of_neg _ (by simpa using h)]
        exact ih
  · intro connected rules windows r w hr hw hc hmatch helig
    induction rules with
    | nil => cases hr
    | cons r0 rs ih =>
      rcases List.mem_cons.mp hr with he | hr'
      · subst he
        rw [rule_window_events]
        apply List.mem_append_left
        rw [hc]
        simp only [if_true]
        exact List.mem_map.mpr ⟨w,
          List.mem_filter.mpr ⟨List.mem_filter.mpr ⟨hw, hmatch⟩, helig⟩, rfl⟩
      · rw [rule_window_events]
        exact List.mem_append_right _ (ih hr')
  · intro u st connected app windows
    unfold apply_rules
    by_cases hr : (get_active_rules u st).isEmpty
    · have hrn : get_active_rules u st = [] := List.isEmpty_iff.mp hr
      rw [hrn]
      simp [zeroResults, rule_window_events]
    · simp only [hr, Bool.not_true, Bool.false_eq_true, if_false, if_true]
      rw [apply_rules_loop_spec]
      simp [zeroResults]

/-- Witness for C1 (amended): the UI predicate picks exactly the first
matching stored rule on the fixture, and the later-in-order title rule's
application event for the chrome window is in the enforcement trace. -/
theorem rule_matching_first_match_ui_not_enforcement_witness :
    find_matching_rule_for_window wChrome [ruleExeJ, ruleTitleJ] =
      [ruleExeJ, ruleTitleJ].find?
        (fun r => layout_rule_matches r wChrome) ∧
    (⟨"r2", "window_title", "chrome", "m3", false, false⟩,
        wChrome) ∈
      rule_window_events connAll [wChrome]
        [⟨"r1", "exe", "chrome", "m2", false, true⟩,
         ⟨"r2", "window_title", "chrome", "m3", false, false⟩] := by
  constructor
  · exact rule_matching_first_match_ui_not_enforcement.1 wChrome
      [ruleExeJ, ruleTitleJ]
  · exact rule_matching_first_match_ui_not_enforcement.2.1 connAll
      [⟨"r1", "exe", "chrome", "m2", false, true⟩,
       ⟨"r2", "window_title", "chrome", "m3", false, false⟩]
      [wChrome] _ _ (by decide) (by decide) rfl (by decide) (by decide)

end BlinkSwitch
